import Mathlib

/-!
Shallow embedding of the MCV backend call path: the browser function
callMcvApi from src/src/app.ts and the Flask handler api_mcv of the Python
standalone server emitted by src/build/pipeline/common.js, together with
definitions modelled from the specification for the pose-solver validation
that the repository specifies but does not ship under src.
-/

namespace MCV

/-- An RGB pixel value triple (r, g, b); 8-bit channels modelled as Nat. -/
abbrev Rgb := Nat × Nat × Nat

/-- Grayscale value of one 8-bit RGB pixel under OpenCV COLOR_RGB2GRAY.
OpenCV (both the opencv.js build used by the web backend and the cv2
library used by the Python backend) computes the 8-bit conversion in fixed
point as Y = (4899 R + 9617 G + 1868 B + 2^13) >> 14. -/
def rgb2grayPixel (p : Rgb) : Nat :=
  (4899 * p.1 + 9617 * p.2.1 + 1868 * p.2.2 + 8192) / 16384

/-- An RGB matrix as produced by cv.matFromArray / np.array: row and column
counts plus pixel data in row-major order. -/
structure RgbMat where
  rows : Nat
  cols : Nat
  data : List Rgb
deriving DecidableEq

/-- A single-channel matrix as produced by cvtColor with COLOR_RGB2GRAY. -/
structure GrayMat where
  rows : Nat
  cols : Nat
  data : List Nat
deriving DecidableEq

/-- Model of cv.cvtColor(src, gray, COLOR_RGB2GRAY) and
cv2.cvtColor(rgb, COLOR_RGB2GRAY): pixelwise grayscale conversion. -/
def cvtColorRGB2GRAY (src : RgbMat) : GrayMat :=
  { rows := src.rows, cols := src.cols, data := src.data.map rgb2grayPixel }

/-- The fixed 1 by 3 test image built by both backends: app.ts builds it with
cv.matFromArray(1, 3, cv.CV_8UC3, [255,0,0, 0,255,0, 0,0,255]) and the Python
handler with np.array([[[255,0,0],[0,255,0],[0,0,255]]], dtype=np.uint8). -/
def testRgbMat : RgbMat :=
  { rows := 1, cols := 3, data := [(255, 0, 0), (0, 255, 0), (0, 0, 255)] }

/-- Error payload of a failure envelope: { code, message, details? }. -/
structure McvError where
  code : String
  message : String
  details : Option String := none
deriving DecidableEq

/-- The request/response envelope: { ok: true, data } or { ok: false, error }. -/
inductive McvResponse (Data : Type) where
  | ok (data : Data)
  | err (error : McvError)
deriving DecidableEq

/-- Success payload of the cv.opencvTest operation (McvOpencvTestResult in
app.ts; the dict built by handle_mcv_cv_opencv_test in the Python server).
Floating point means are modelled as exact rationals. -/
structure McvOpencvTestResult where
  opencv_version : String
  gray_values : List Nat
  shape : List Nat
  mean_gray : ℚ
deriving DecidableEq

/-- A request envelope { op, args }; the args payload type is a parameter. -/
structure McvRequest (A : Type) where
  op : String
  args : A

/-- Data computed by the web backend branch of callMcvApi for cv.opencvTest.
The version argument models cv.VERSION, which may be absent, in which case
String(cv.VERSION ?? "opencv.js") falls back to "opencv.js"; mean_gray is
grayValues.reduce((sum, value) => sum + value, 0) / grayValues.length when
the list is nonempty and 0 otherwise. -/
def webOpencvTest (version : Option String) : McvOpencvTestResult :=
  let gray := cvtColorRGB2GRAY testRgbMat
  let grayValues := gray.data
  { opencv_version := version.getD "opencv.js"
    gray_values := grayValues
    shape := [gray.rows, gray.cols]
    mean_gray :=
      if grayValues.length > 0 then
        ((grayValues.foldl (fun sum v => sum + v) 0 : Nat) : ℚ) / (grayValues.length : ℚ)
      else 0 }

/-- Model of handle_mcv_cv_opencv_test in the Python server: converts the
fixed test image with cv2.cvtColor and reports gray values, shape and
float(np.mean(gray)), which is the sum divided by the element count. -/
def handle_mcv_cv_opencv_test (cv2Version : String) : McvOpencvTestResult :=
  let gray := cvtColorRGB2GRAY testRgbMat
  { opencv_version := cv2Version
    gray_values := gray.data
    shape := [gray.rows, gray.cols]
    mean_gray := ((gray.data.foldl (fun sum v => sum + v) 0 : Nat) : ℚ) / (gray.data.length : ℚ) }

/-- Model of the Flask route api_mcv (POST /api/mcv) of the Python server:
for op "cv.opencvTest" it replies HTTP 200 with a success envelope, for any
other op it replies HTTP 400 with an UNKNOWN_OP failure envelope. -/
def api_mcv {A : Type} (cv2Version : String) (payload : McvRequest A) :
    Nat × McvResponse McvOpencvTestResult :=
  if payload.op = "cv.opencvTest" then
    (200, .ok (handle_mcv_cv_opencv_test cv2Version))
  else
    (400, .err { code := "UNKNOWN_OP", message := "Unsupported operation: " ++ payload.op })

/-- Settled outcome of acquiring the OpenCV.js runtime in the browser:
either the acquisition (script load, window.cv lookup, or the cv calls made
under the same try block) throws with some message, or a runtime is obtained
whose VERSION property may be present or absent. -/
inductive CvOutcome where
  | failure (message : String)
  | runtime (version : Option String)
deriving DecidableEq

/-- Module-level mutable state of src/src/app.ts that the backend call path
touches: cvPromise caches the settled outcome of the first runtime
acquisition (a rejected promise stays cached as well). -/
structure AppState where
  cvPromise : Option CvOutcome
deriving DecidableEq

/-- The environment fixed outside the module for one deployment: the outcome
runtime acquisition would settle to in this browser, the cv2 version of the
Python server, and whether fetch("/api/mcv") rejects (some message) or
reaches the server (none). -/
structure Env where
  cvLoad : CvOutcome
  cv2Version : String
  netFail : Option String
deriving DecidableEq

/-- Model of getWebMcvRuntime: returns the cached outcome when cvPromise is
set, otherwise performs the acquisition and caches its outcome. -/
def getWebMcvRuntime (env : Env) (s : AppState) : CvOutcome × AppState :=
  match s.cvPromise with
  | some settled => (settled, s)
  | none => (env.cvLoad, { cvPromise := some env.cvLoad })

/-- The build-time constant __MCV_BACKEND__ selecting the backend. -/
inductive Backend where
  | web
  | python
deriving DecidableEq

/-- Model of callMcvApi from src/src/app.ts, one step of the module state.
Web backend: an op other than "cv.opencvTest" is rejected with UNKNOWN_OP
before the runtime is touched; otherwise the runtime is acquired (through the
cvPromise cache) and either the fixed test image is converted (success) or
the thrown error is caught as WEB_BACKEND_ERROR. Python backend: a rejected
fetch is caught as NETWORK_ERROR, a non-2xx HTTP status is reported as
HTTP_ERROR, and a 2xx reply body from api_mcv is returned as is. -/
def callMcvApi {A : Type} (backend : Backend) (env : Env) (s : AppState)
    (requestBody : McvRequest A) : McvResponse McvOpencvTestResult × AppState :=
  match backend with
  | .web =>
    if requestBody.op ≠ "cv.opencvTest" then
      (.err { code := "UNKNOWN_OP",
              message := "Unsupported operation in web backend: " ++ requestBody.op }, s)
    else
      match getWebMcvRuntime env s with
      | (.failure message, s1) =>
        (.err { code := "WEB_BACKEND_ERROR", message := "OpenCV.js call failed",
                details := some message }, s1)
      | (.runtime version, s1) => (.ok (webOpencvTest version), s1)
  | .python =>
    match env.netFail with
    | some message =>
      (.err { code := "NETWORK_ERROR", message := "Could not reach backend API",
              details := some message }, s)
    | none =>
      let reply := api_mcv env.cv2Version requestBody
      if 200 ≤ reply.1 ∧ reply.1 < 300 then (reply.2, s)
      else (.err { code := "HTTP_ERROR", message := "HTTP " ++ toString reply.1 }, s)

/-- A 2D pixel coordinate, real coordinates modelled as rationals. -/
abbrev Pixel := ℚ × ℚ

/-- A 3D world coordinate. -/
abbrev WorldPoint := ℚ × ℚ × ℚ

/-- One (pixel, world) correspondence as in the solvePose args schema. -/
structure Correspondence where
  pixel : Pixel
  world : WorldPoint
deriving DecidableEq

/-- Componentwise difference of 3D points. -/
def sub3 (a b : WorldPoint) : WorldPoint := (a.1 - b.1, a.2.1 - b.2.1, a.2.2 - b.2.2)

/-- Componentwise difference of 2D points. -/
def sub2 (a b : Pixel) : Pixel := (a.1 - b.1, a.2 - b.2)

/-- Scalar triple product of three 3D vectors. -/
def det3 (u v w : WorldPoint) : ℚ :=
  u.1 * (v.2.1 * w.2.2 - v.2.2 * w.2.1)
  - u.2.1 * (v.1 * w.2.2 - v.2.2 * w.1)
  + u.2.2 * (v.1 * w.2.1 - v.2.1 * w.1)

/-- Cross product of two 2D vectors. -/
def cross2 (u v : Pixel) : ℚ := u.1 * v.2 - u.2 * v.1

/-- Modelled from the spec: coplanarity of the 3D point cloud, the exact form
of the rank test on the centered point cloud used by the degeneracy check of
the Correspondence Registry (no solver code ships under src). All points lie
in one plane exactly when every triple of difference vectors from the first
point has vanishing scalar triple product. -/
def coplanar (points : List WorldPoint) : Bool :=
  match points with
  | [] => true
  | p :: rest =>
    let ds := rest.map (fun q => sub3 q p)
    ds.all fun u => ds.all fun v => ds.all fun w => decide (det3 u v w = 0)

/-- Modelled from the spec: collinearity of the projected 2D points, the
exact form of the projection test of the degeneracy check. All points lie on
one line exactly when every pair of difference vectors from the first point
has vanishing cross product. -/
def collinear2 (points : List Pixel) : Bool :=
  match points with
  | [] => true
  | p :: rest =>
    let ds := rest.map (fun q => sub2 q p)
    ds.all fun u => ds.all fun v => decide (cross2 u v = 0)

/-- Outcome of Registry validation per spec section 4.1. -/
inductive ValidationResult where
  | valid
  | INSUFFICIENT_POINTS
  | DEGENERATE_CONFIGURATION
deriving DecidableEq

/-- Modelled from the spec: the validate operation of the Correspondence
Registry (src ships no solver implementation). Spec section 4.1: count < 6
gives INSUFFICIENT_POINTS; world points coplanar with collinear projections
give DEGENERATE_CONFIGURATION; the count check is listed first. -/
def validate (cs : List Correspondence) : ValidationResult :=
  if cs.length < 6 then .INSUFFICIENT_POINTS
  else if coplanar (cs.map (fun c => c.world)) && collinear2 (cs.map (fun c => c.pixel)) then
    .DEGENERATE_CONFIGURATION
  else .valid

/-- The CameraPoseEstimate payload of spec sections 3 and 6: rotation matrix,
translation, focal length, residuals, RMS error, convergence flag. -/
structure CameraPoseEstimate where
  rotation : List (List ℚ)
  translation : ℚ × ℚ × ℚ
  focalLength : ℚ
  residuals : List ℚ
  rmsError : ℚ
  converged : Bool
deriving DecidableEq

/-- Result of a solvePose call: a pose estimate or a typed failure code. -/
inductive PoseOutcome where
  | pose (estimate : CameraPoseEstimate)
  | err (code : String)
deriving DecidableEq

/-- Modelled from the spec: solvePose runs Registry validation before the
solver is invoked and never returns a pose on a validation failure (spec
sections 4.1 and 4.2). The numeric DLT-plus-refinement core is an explicit
parameter; it is consulted only for a set that passes validation. -/
def solvePose (core : List Correspondence → PoseOutcome)
    (cs : List Correspondence) : PoseOutcome :=
  match validate cs with
  | .INSUFFICIENT_POINTS => .err "INSUFFICIENT_POINTS"
  | .DEGENERATE_CONFIGURATION => .err "DEGENERATE_CONFIGURATION"
  | .valid => core cs

/-- A (frame index, pixel position) sample of the tick-boundary solver args. -/
structure TrajectorySample where
  frame : ℚ
  pixel : Pixel
deriving DecidableEq

/-- Args of the solveTickBoundary operation per spec section 6. -/
structure TickBoundaryArgs where
  segmentBefore : List TrajectorySample
  segmentAfter : List TrajectorySample
deriving DecidableEq

/-- A deployment environment whose runtime acquisition succeeds with VERSION
"4.9.0", whose Python server runs cv2 4.9.0, and whose network is up. -/
def env0 : Env :=
  { cvLoad := .runtime (some "4.9.0"), cv2Version := "4.9.0", netFail := none }

/-- The fresh module state: no runtime acquisition has happened yet. -/
def s0 : AppState := { cvPromise := none }

/-- Six correspondences whose world points lie on one line (hence coplanar)
and whose pixel projections are collinear. -/
def sixLineCorr : List Correspondence :=
  [{ pixel := (0, 0), world := (0, 0, 0) },
   { pixel := (1, 0), world := (1, 0, 0) },
   { pixel := (2, 0), world := (2, 0, 0) },
   { pixel := (3, 0), world := (3, 0, 0) },
   { pixel := (4, 0), world := (4, 0, 0) },
   { pixel := (5, 0), world := (5, 0, 0) }]

/-- Two correspondences: below the minimum count, and trivially coplanar and
collinear in projection. -/
def twoCorr : List Correspondence :=
  [{ pixel := (0, 0), world := (0, 0, 0) },
   { pixel := (1, 0), world := (1, 0, 0) }]

/-- A numeric core that always reports non-convergence, used as a concrete
instantiation of the solver parameter. -/
def core0 : List Correspondence → PoseOutcome := fun _ => .err "NON_CONVERGENCE"

/-- Concrete solveTickBoundary args with two samples in each segment. -/
def tickArgs0 : TickBoundaryArgs :=
  { segmentBefore := [{ frame := 10, pixel := (0, 0) }, { frame := 11, pixel := (1, 1) }]
    segmentAfter := [{ frame := 11, pixel := (1, 1) }, { frame := 12, pixel := (2, 0) }] }

/-- Unfolding of the web branch of callMcvApi. -/
theorem callMcvApi_web_eq {A : Type} (env : Env) (s : AppState) (req : McvRequest A) :
    callMcvApi .web env s req =
      if req.op ≠ "cv.opencvTest" then
        (.err { code := "UNKNOWN_OP",
                message := "Unsupported operation in web backend: " ++ req.op }, s)
      else
        match getWebMcvRuntime env s with
        | (.failure message, s1) =>
          (.err { code := "WEB_BACKEND_ERROR", message := "OpenCV.js call failed",
                  details := some message }, s1)
        | (.runtime version, s1) => (.ok (webOpencvTest version), s1) := rfl

/-- Unfolding of api_mcv for an op other than cv.opencvTest. -/
theorem api_mcv_op_unknown {A : Type} (v : String) (req : McvRequest A)
    (h : ¬ req.op = "cv.opencvTest") :
    api_mcv v req =
      (400, .err { code := "UNKNOWN_OP", message := "Unsupported operation: " ++ req.op }) := by
  unfold api_mcv
  rw [if_neg h]

/-- Unfolding of api_mcv for the cv.opencvTest op. -/
theorem api_mcv_op_test {A : Type} (v : String) (req : McvRequest A)
    (h : req.op = "cv.opencvTest") :
    api_mcv v req = (200, .ok (handle_mcv_cv_opencv_test v)) := by
  unfold api_mcv
  rw [if_pos h]

/-- Behaviour of the web branch on an op other than cv.opencvTest. -/
theorem callMcvApi_web_unknown_eq {A : Type} (env : Env) (s : AppState) (req : McvRequest A)
    (h : ¬ req.op = "cv.opencvTest") :
    callMcvApi .web env s req =
      (.err { code := "UNKNOWN_OP",
              message := "Unsupported operation in web backend: " ++ req.op }, s) := by
  rw [callMcvApi_web_eq, if_pos h]

/-- Unfolding of the python branch of callMcvApi when the network is up. -/
theorem callMcvApi_python_none_eq {A : Type} (load : CvOutcome) (v : String) (s : AppState)
    (req : McvRequest A) :
    callMcvApi .python { cvLoad := load, cv2Version := v, netFail := none } s req =
      if 200 ≤ (api_mcv v req).1 ∧ (api_mcv v req).1 < 300 then ((api_mcv v req).2, s)
      else (.err { code := "HTTP_ERROR",
                   message := "HTTP " ++ toString (api_mcv v req).1 }, s) := rfl

/-- Behaviour of the python path on an op other than cv.opencvTest with the
network up: the 400 reply of api_mcv surfaces as HTTP_ERROR. -/
theorem callMcvApi_python_unknown_eq {A : Type} (load : CvOutcome) (v : String) (s : AppState)
    (req : McvRequest A) (h : ¬ req.op = "cv.opencvTest") :
    callMcvApi .python { cvLoad := load, cv2Version := v, netFail := none } s req =
      (.err { code := "HTTP_ERROR", message := "HTTP 400" }, s) := by
  rw [callMcvApi_python_none_eq, api_mcv_op_unknown v req h]
  simp
  rfl

/-- Behaviour of the python path on the cv.opencvTest op with the network up. -/
theorem callMcvApi_python_test_eq {A : Type} (load : CvOutcome) (v : String) (s : AppState)
    (req : McvRequest A) (h : req.op = "cv.opencvTest") :
    callMcvApi .python { cvLoad := load, cv2Version := v, netFail := none } s req =
      (.ok (handle_mcv_cv_opencv_test v), s) := by
  rw [callMcvApi_python_none_eq, api_mcv_op_test v req h]
  rfl

/-- Claim C1 counterexample: a solvePose request whose args are six (pixel,
world) correspondences is answered by the web backend with error code
UNKNOWN_OP, which is none of INSUFFICIENT_POINTS, DEGENERATE_CONFIGURATION,
NON_CONVERGENCE, so the claimed solvePose contract does not hold on the code. -/
theorem solvePose_not_exposed_cex :
    sixLineCorr.length = 6 ∧
    (callMcvApi .web env0 s0 { op := "solvePose", args := sixLineCorr }).1 =
      .err { code := "UNKNOWN_OP",
             message := "Unsupported operation in web backend: solvePose" } ∧
    "UNKNOWN_OP" ∉ ["INSUFFICIENT_POINTS", "DEGENERATE_CONFIGURATION", "NON_CONVERGENCE"] := by
  refine ⟨rfl, rfl, by decide⟩

/-- Claim C1 (amended): solvePose is not among the exposed operations. Every
request with op solvePose and at least 6 correspondences as args is answered
with a failure, never a success: the web backend reports UNKNOWN_OP, the
Python API replies HTTP 400 with an UNKNOWN_OP failure envelope, and the
browser-to-Python path surfaces the 400 as an HTTP_ERROR failure. -/
theorem solvePose_request_rejected (env : Env) (s : AppState) (load : CvOutcome)
    (v : String) (cs : List Correspondence) (hlen : 6 ≤ cs.length) :
    (callMcvApi .web env s { op := "solvePose", args := cs }).1 =
      .err { code := "UNKNOWN_OP",
             message := "Unsupported operation in web backend: solvePose" } ∧
    api_mcv v { op := "solvePose", args := cs } =
      (400, .err { code := "UNKNOWN_OP", message := "Unsupported operation: solvePose" }) ∧
    (callMcvApi .python { cvLoad := load, cv2Version := v, netFail := none } s
        { op := "solvePose", args := cs }).1 =
      .err { code := "HTTP_ERROR", message := "HTTP 400" } := by
  refine ⟨rfl, rfl, ?_⟩
  rw [callMcvApi_python_unknown_eq load v s { op := "solvePose", args := cs }
    (show ¬ "solvePose" = "cv.opencvTest" by decide)]

/-- Witness for the amended C1 theorem at a concrete six-point input. -/
theorem solvePose_request_rejected_witness :
    (callMcvApi .web env0 s0 { op := "solvePose", args := sixLineCorr }).1 =
      .err { code := "UNKNOWN_OP",
             message := "Unsupported operation in web backend: solvePose" } :=
  (solvePose_request_rejected env0 s0 (.runtime none) "4.9.0" sixLineCorr (by decide)).1

/-- Claim C2 counterexample: a solveTickBoundary request whose segments have
two samples each is answered by the web backend with error code UNKNOWN_OP,
which is neither INSUFFICIENT_SAMPLES nor PARALLEL_LINES, so the claimed
solveTickBoundary contract does not hold on the code. -/
theorem solveTickBoundary_not_exposed_cex :
    tickArgs0.segmentBefore.length = 2 ∧ tickArgs0.segmentAfter.length = 2 ∧
    (callMcvApi .web env0 s0 { op := "solveTickBoundary", args := tickArgs0 }).1 =
      .err { code := "UNKNOWN_OP",
             message := "Unsupported operation in web backend: solveTickBoundary" } ∧
    "UNKNOWN_OP" ∉ ["INSUFFICIENT_SAMPLES", "PARALLEL_LINES"] := by
  refine ⟨rfl, rfl, rfl, by decide⟩

/-- Claim C2 (amended): solveTickBoundary is not among the exposed
operations. Every request with op solveTickBoundary carrying segmentBefore
and segmentAfter sample lists is answered with a failure, never a success:
the web backend reports UNKNOWN_OP, the Python API replies HTTP 400 with an
UNKNOWN_OP failure envelope, and the browser-to-Python path surfaces the 400
as an HTTP_ERROR failure. -/
theorem solveTickBoundary_request_rejected (env : Env) (s : AppState) (load : CvOutcome)
    (v : String) (args : TickBoundaryArgs) :
    (callMcvApi .web env s { op := "solveTickBoundary", args := args }).1 =
      .err { code := "UNKNOWN_OP",
             message := "Unsupported operation in web backend: solveTickBoundary" } ∧
    api_mcv v { op := "solveTickBoundary", args := args } =
      (400, .err { code := "UNKNOWN_OP",
                   message := "Unsupported operation: solveTickBoundary" }) ∧
    (callMcvApi .python { cvLoad := load, cv2Version := v, netFail := none } s
        { op := "solveTickBoundary", args := args }).1 =
      .err { code := "HTTP_ERROR", message := "HTTP 400" } := by
  refine ⟨rfl, rfl, ?_⟩
  rw [callMcvApi_python_unknown_eq load v s { op := "solveTickBoundary", args := args }
    (show ¬ "solveTickBoundary" = "cv.opencvTest" by decide)]

/-- Claim C3: every invocation of callMcvApi terminates in a returned value
of the envelope shape — the model is a total function into the response
type, every exceptional path of the source (unsupported op, backend
exception, non-2xx HTTP status, unreachable network) is caught into a
failure envelope with one of the four frontend error codes, and the only
other outcome is a success envelope. -/
theorem callMcvApi_total_envelope {A : Type} (backend : Backend) (env : Env) (s : AppState)
    (requestBody : McvRequest A) :
    (∃ d, (callMcvApi backend env s requestBody).1 = .ok d) ∨
    (∃ e, (callMcvApi backend env s requestBody).1 = .err e ∧
      e.code ∈ ["UNKNOWN_OP", "WEB_BACKEND_ERROR", "HTTP_ERROR", "NETWORK_ERROR"]) := by
  obtain ⟨op, args⟩ := requestBody
  cases backend with
  | web =>
    by_cases h : op = "cv.opencvTest"
    · subst h
      obtain ⟨cp⟩ := s
      cases cp with
      | none =>
        obtain ⟨load, v, net⟩ := env
        cases load with
        | failure m => exact Or.inr ⟨_, rfl, by simp⟩
        | runtime ver => exact Or.inl ⟨_, rfl⟩
      | some o =>
        cases o with
        | failure m => exact Or.inr ⟨_, rfl, by simp⟩
        | runtime ver => exact Or.inl ⟨_, rfl⟩
    · rw [callMcvApi_web_unknown_eq env s _ h]
      exact Or.inr ⟨_, rfl, by simp⟩
  | python =>
    obtain ⟨load, v, net⟩ := env
    cases net with
    | some m => exact Or.inr ⟨_, rfl, by simp⟩
    | none =>
      by_cases h : op = "cv.opencvTest"
      · rw [callMcvApi_python_test_eq load v s _ h]
        exact Or.inl ⟨_, rfl⟩
      · rw [callMcvApi_python_unknown_eq load v s _ h]
        exact Or.inr ⟨_, rfl, by simp⟩

/-- Claim C4 (spec-modelled): a correspondence set with fewer than 6 pairs is
rejected by validation with INSUFFICIENT_POINTS, and solvePose on such a set
returns the INSUFFICIENT_POINTS failure and never a pose, for every numeric
core — so the count check decides the call before the solver is consulted. -/
theorem validate_insufficient_points (core : List Correspondence → PoseOutcome)
    (cs : List Correspondence) (h : cs.length < 6) :
    validate cs = .INSUFFICIENT_POINTS ∧
    solvePose core cs = .err "INSUFFICIENT_POINTS" ∧
    ∀ est, solvePose core cs ≠ .pose est := by
  have hv : validate cs = .INSUFFICIENT_POINTS := by
    unfold validate
    rw [if_pos h]
  have hs : solvePose core cs = .err "INSUFFICIENT_POINTS" := by
    unfold solvePose
    rw [hv]
  exact ⟨hv, hs, fun est hc => PoseOutcome.noConfusion (hs.symm.trans hc)⟩

/-- Witness for the C4 theorem at a concrete two-point input. -/
theorem validate_insufficient_points_witness :
    validate twoCorr = .INSUFFICIENT_POINTS ∧
    solvePose core0 twoCorr = .err "INSUFFICIENT_POINTS" :=
  ⟨(validate_insufficient_points core0 twoCorr (by decide)).1,
   (validate_insufficient_points core0 twoCorr (by decide)).2.1⟩

unseal Rat.mul Rat.inv Rat.add Rat.sub in
/-- Claim C5 counterexample: a two-point set whose world points are coplanar
and whose projections are collinear is answered with INSUFFICIENT_POINTS,
not DEGENERATE_CONFIGURATION — the count check fires first, so the claim is
false for degenerate sets with fewer than 6 pairs. -/
theorem degenerate_small_set_cex :
    coplanar (twoCorr.map (fun c => c.world)) = true ∧
    collinear2 (twoCorr.map (fun c => c.pixel)) = true ∧
    solvePose core0 twoCorr = .err "INSUFFICIENT_POINTS" ∧
    solvePose core0 twoCorr ≠ .err "DEGENERATE_CONFIGURATION" := by
  exact ⟨by decide, by decide, by decide, by decide⟩

/-- Claim C5 (amended, spec-modelled): on a set whose world points are all
coplanar and whose projections are collinear, solvePose never returns a
pose, for every numeric core: with at least 6 pairs it deterministically
returns DEGENERATE_CONFIGURATION, while with fewer than 6 the count check
fires first and it returns INSUFFICIENT_POINTS. -/
theorem solvePose_degenerate_configuration (core : List Correspondence → PoseOutcome)
    (cs : List Correspondence)
    (hcop : coplanar (cs.map (fun c => c.world)) = true)
    (hcol : collinear2 (cs.map (fun c => c.pixel)) = true) :
    (6 ≤ cs.length → solvePose core cs = .err "DEGENERATE_CONFIGURATION") ∧
    (cs.length < 6 → solvePose core cs = .err "INSUFFICIENT_POINTS") ∧
    ∀ est, solvePose core cs ≠ .pose est := by
  by_cases hlen : cs.length < 6
  · have hv : validate cs = .INSUFFICIENT_POINTS := by
      unfold validate
      rw [if_pos hlen]
    have hs : solvePose core cs = .err "INSUFFICIENT_POINTS" := by
      unfold solvePose
      rw [hv]
    exact ⟨fun h6 => absurd hlen (by omega), fun _ => hs,
      fun est hc => PoseOutcome.noConfusion (hs.symm.trans hc)⟩
  · have hv : validate cs = .DEGENERATE_CONFIGURATION := by
      unfold validate
      rw [if_neg hlen, if_pos (show _ = true by rw [hcop, hcol]; rfl)]
    have hs : solvePose core cs = .err "DEGENERATE_CONFIGURATION" := by
      unfold solvePose
      rw [hv]
    exact ⟨fun _ => hs, fun hlt => absurd hlt hlen,
      fun est hc => PoseOutcome.noConfusion (hs.symm.trans hc)⟩

unseal Rat.mul Rat.inv Rat.add Rat.sub in
/-- Witness for the amended C5 theorem at a concrete six-point degenerate
input. -/
theorem solvePose_degenerate_configuration_witness :
    solvePose core0 sixLineCorr = .err "DEGENERATE_CONFIGURATION" :=
  (solvePose_degenerate_configuration core0 sixLineCorr (by decide) (by decide)).1 (by decide)

unseal Rat.mul Rat.inv Rat.add Rat.sub in
/-- Claim C6: the local (web/OpenCV.js) backend and the remote (Python/cv2)
backend agree on the cv.opencvTest operation: whatever the args and the
reported library versions, both succeed on the fixed 1 by 3 red/green/blue
test image with equal gray_values, equal shape [1, 3] and equal mean_gray. -/
theorem backends_agree_on_opencvTest {A : Type} (a : A) (ver : Option String) (v2 : String)
    (load : CvOutcome) :
    (callMcvApi .web { cvLoad := .runtime ver, cv2Version := v2, netFail := none } s0
        { op := "cv.opencvTest", args := a }).1 = .ok (webOpencvTest ver) ∧
    (callMcvApi .python { cvLoad := load, cv2Version := v2, netFail := none } s0
        { op := "cv.opencvTest", args := a }).1 = .ok (handle_mcv_cv_opencv_test v2) ∧
    (webOpencvTest ver).gray_values = (handle_mcv_cv_opencv_test v2).gray_values ∧
    (webOpencvTest ver).shape = (handle_mcv_cv_opencv_test v2).shape ∧
    (webOpencvTest ver).shape = [1, 3] ∧
    (webOpencvTest ver).mean_gray = (handle_mcv_cv_opencv_test v2).mean_gray := by
  exact ⟨rfl, rfl, rfl, rfl, rfl, rfl⟩

/-- Claim C7: the exposed operation is a pure function of its request: a
second cv.opencvTest invocation, run from the module state left by a first
one and with possibly different args, returns the same response, and for any
op the response does not depend on the args at all. -/
theorem opencvTest_pure_of_request {A : Type} (backend : Backend) (env : Env) (s : AppState)
    (a1 a2 : A) (op : String) :
    (callMcvApi backend env
        (callMcvApi backend env s { op := "cv.opencvTest", args := a1 }).2
        { op := "cv.opencvTest", args := a2 }).1 =
      (callMcvApi backend env s { op := "cv.opencvTest", args := a1 }).1 ∧
    (callMcvApi backend env s { op := op, args := a1 }).1 =
      (callMcvApi backend env s { op := op, args := a2 }).1 := by
  constructor
  · cases backend with
    | web =>
      obtain ⟨load, v, net⟩ := env
      obtain ⟨cp⟩ := s
      cases cp with
      | none => cases load <;> rfl
      | some o => cases o <;> rfl
    | python =>
      obtain ⟨load, v, net⟩ := env
      cases net <;> rfl
  · rfl

unseal Rat.mul Rat.inv Rat.add Rat.sub in
/-- Claim C8 counterexample: the backend call path both writes module-level
mutable state (a cv.opencvTest call from the fresh state caches the runtime
acquisition outcome in cvPromise) and reads it (two states caching runtimes
with different VERSION strings yield different success data), so the module
implementing the call path is not free of module-level mutable state. -/
theorem cvPromise_module_state_cex :
    (callMcvApi .web env0 s0 { op := "cv.opencvTest", args := () }).2 ≠ s0 ∧
    (callMcvApi .web env0 { cvPromise := some (.runtime (some "4.8.0")) }
        { op := "cv.opencvTest", args := () }).1 ≠
      (callMcvApi .web env0 { cvPromise := some (.runtime (some "4.9.0")) }
        { op := "cv.opencvTest", args := () }).1 := by
  exact ⟨by decide, by decide⟩

/-- Claim C8 (amended): the app module does hold module-level mutable state —
the cvPromise runtime cache — which the web backend call path reads and
writes, but it is only a run-once memoization: the python path never touches
the module state, and a second web call from the post-state of a first call
with the same request leaves the state unchanged and returns the same
response. -/
theorem cvPromise_memoization_idempotent {A : Type} (env : Env) (s : AppState)
    (req : McvRequest A) :
    (callMcvApi .python env s req).2 = s ∧
    (callMcvApi .web env (callMcvApi .web env s req).2 req).2 =
      (callMcvApi .web env s req).2 ∧
    (callMcvApi .web env (callMcvApi .web env s req).2 req).1 =
      (callMcvApi .web env s req).1 := by
  obtain ⟨op, args⟩ := req
  obtain ⟨load, v, net⟩ := env
  obtain ⟨cp⟩ := s
  by_cases h : op = "cv.opencvTest"
  · subst h
    refine ⟨?_, ?_, ?_⟩
    · cases net <;> rfl
    · cases cp with
      | none => cases load <;> rfl
      | some o => cases o <;> rfl
    · cases cp with
      | none => cases load <;> rfl
      | some o => cases o <;> rfl
  · have hw := callMcvApi_web_unknown_eq { cvLoad := load, cv2Version := v, netFail := net }
      { cvPromise := cp } { op := op, args := args } h
    refine ⟨?_, ?_, ?_⟩
    · cases net with
      | some m => rfl
      | none =>
        rw [callMcvApi_python_none_eq]
        split <;> rfl
    · simp only [hw]
    · simp only [hw]

/-- Claim C9: for every request whose op is not cv.opencvTest, the web
backend returns an UNKNOWN_OP failure without invoking the OpenCV runtime
(the module state, which any runtime acquisition from a fresh state would
write, is returned untouched), the Python API replies HTTP 400 with an
UNKNOWN_OP failure envelope, and neither produces a success for such an op. -/
theorem unknown_op_rejected {A : Type} (env : Env) (s : AppState) (req : McvRequest A)
    (h : ¬ req.op = "cv.opencvTest") :
    callMcvApi .web env s req =
      (.err { code := "UNKNOWN_OP",
              message := "Unsupported operation in web backend: " ++ req.op }, s) ∧
    api_mcv env.cv2Version req =
      (400, .err { code := "UNKNOWN_OP", message := "Unsupported operation: " ++ req.op }) ∧
    ∀ d, (callMcvApi .web env s req).1 ≠ .ok d ∧ (api_mcv env.cv2Version req).2 ≠ .ok d := by
  have hw := callMcvApi_web_unknown_eq env s req h
  have hp := api_mcv_op_unknown env.cv2Version req h
  refine ⟨hw, hp, fun d => ⟨?_, ?_⟩⟩
  · rw [hw]
    exact fun hc => McvResponse.noConfusion hc
  · rw [hp]
    exact fun hc => McvResponse.noConfusion hc

/-- Witness for the C9 theorem at a concrete unsupported op. -/
theorem unknown_op_rejected_witness :
    callMcvApi .web env0 s0 { op := "cv.gaussianBlur", args := () } =
      (.err { code := "UNKNOWN_OP",
              message := "Unsupported operation in web backend: cv.gaussianBlur" }, s0) :=
  (unknown_op_rejected env0 s0 { op := "cv.gaussianBlur", args := () }
    (show ¬ "cv.gaussianBlur" = "cv.opencvTest" by decide)).1

/-- Claim C10: in every success response of callMcvApi, whatever the backend
and the request, the mean_gray field equals the arithmetic mean of the
gray_values list, taken as 0 when that list is empty. -/
theorem mean_gray_is_average {A : Type} (backend : Backend) (env : Env) (s : AppState)
    (req : McvRequest A) (d : McvOpencvTestResult)
    (h : (callMcvApi backend env s req).1 = .ok d) :
    d.mean_gray =
      if d.gray_values = [] then 0
      else ((d.gray_values.sum : ℚ) / (d.gray_values.length : ℚ)) := by
  obtain ⟨op, args⟩ := req
  cases backend with
  | web =>
    by_cases hop : op = "cv.opencvTest"
    · subst hop
      obtain ⟨load, v, net⟩ := env
      obtain ⟨cp⟩ := s
      cases cp with
      | none =>
        cases load with
        | failure m => exact McvResponse.noConfusion h
        | runtime ver =>
          obtain rfl : webOpencvTest ver = d := McvResponse.ok.inj h
          rfl
      | some o =>
        cases o with
        | failure m => exact McvResponse.noConfusion h
        | runtime ver =>
          obtain rfl : webOpencvTest ver = d := McvResponse.ok.inj h
          rfl
    · rw [callMcvApi_web_unknown_eq env s _ hop] at h
      exact McvResponse.noConfusion h
  | python =>
    obtain ⟨load, v, net⟩ := env
    cases net with
    | some m => exact McvResponse.noConfusion h
    | none =>
      by_cases hop : op = "cv.opencvTest"
      · rw [callMcvApi_python_test_eq load v s _ hop] at h
        obtain rfl : handle_mcv_cv_opencv_test v = d := McvResponse.ok.inj h
        rfl
      · rw [callMcvApi_python_unknown_eq load v s _ hop] at h
        exact McvResponse.noConfusion h

/-- Witness for the C10 theorem at a concrete successful web call. -/
theorem mean_gray_is_average_witness :
    (webOpencvTest (some "4.9.0")).mean_gray =
      if (webOpencvTest (some "4.9.0")).gray_values = [] then 0
      else (((webOpencvTest (some "4.9.0")).gray_values.sum : ℚ) /
        ((webOpencvTest (some "4.9.0")).gray_values.length : ℚ)) :=
  mean_gray_is_average .web env0 s0 { op := "cv.opencvTest", args := () }
    (webOpencvTest (some "4.9.0")) rfl

end MCV
